import Mathlib

/-!
Verification development for the FmodCMake developer-setup scripts.

The repository consists of six Python scripts:
  * `tools/get_fmod_api.py`    — FMOD Studio API downloader
  * `tools/get_raylib.py`      — raylib downloader
  * `tools/install_fmod_api.py`— FMOD installer (extract + copy + cleanup)
  * `tools/install_raylib.py`  — raylib installer (extract + copy + cleanup)
  * `tools/setup_fmod_api.py`  — FMOD orchestrator (download then install)
  * `tools/setup_raylib.py`    — raylib orchestrator (download then install)

This file shallowly embeds the parts of those scripts that the verified
claims are about: Python strings are modelled as `List Char` (or Lean
`String` where only concatenation/lookup is involved), filesystem paths as
lists of path segments, the filesystem itself as the list of existing
paths, and external effects (the 7-Zip subprocess, archive extraction) as
explicit oracles.  Fallible Python code (raising exceptions) is modelled
with `Option`/`Except` or explicit `raised` flags.
-/

namespace FmodCMake

/-! ## Python string primitives

Python's `str` is modelled as `List Char`.  `leadsL` models
`str.startswith` (generalized to any `BEq` element type so that it can
also serve as the path-prefix test used by the filesystem model),
`hasSubL` models the `in` substring operator, `trailsWith` models
`str.endswith`, and `pyLower` models `str.lower` (the filenames involved
are ASCII, where `Char.toLower` agrees with Python's `lower`). -/

/-- `leadsL pat l` is true iff `pat` is an initial segment of `l`
(Python `startswith`; also used as the path-prefix test). -/
def leadsL {α : Type} [BEq α] : List α → List α → Bool
  | [], _ => true
  | _ :: _, [] => false
  | a :: as, b :: bs => a == b && leadsL as bs

/-- `hasSubL pat l` is true iff `pat` occurs contiguously inside `l`
(Python's `in` operator on strings). -/
def hasSubL {α : Type} [BEq α] (pat : List α) : List α → Bool
  | [] => pat.isEmpty
  | b :: bs => leadsL pat (b :: bs) || hasSubL pat bs

/-- Python `str.endswith`. -/
def trailsWith (suf s : List Char) : Bool :=
  leadsL suf.reverse s.reverse

/-- Python `str.lower` (ASCII). -/
def pyLower (s : List Char) : List Char := s.map Char.toLower

/-! ## `str.format(version=...)`

Both downloaders store filename templates containing the placeholder
`{version}` and instantiate them with `.format(version=...)`
(`get_fmod_api.py` line 71, `get_raylib.py` line 65).  `formatVersion`
replaces every occurrence of the placeholder by the version string and
copies all other characters verbatim, which is exactly what `.format`
does on these templates. -/

/-- Replace every occurrence of the literal `{version}` in the template
(second argument) by `v`. -/
def formatVersion (v : List Char) : List Char → List Char
  | '{' :: 'v' :: 'e' :: 'r' :: 's' :: 'i' :: 'o' :: 'n' :: '}' :: rest => v ++ formatVersion v rest
  | c :: rest => c :: formatVersion v rest
  | [] => []

/-- `template.format(version=v)` on Lean `String`s. -/
def pyFormatVersion (template v : String) : String :=
  ⟨formatVersion v.data template.data⟩

/-! ## Downloader platform tables

`PLATFORM_CONFIG` of `get_fmod_api.py` (lines 14-27) and of
`get_raylib.py` (lines 12-22), keeping only the `filename` fields the
claims are about, in source order. -/

/-- `get_fmod_api.PLATFORM_CONFIG`: platform key ↦ filename template. -/
def fmodPlatformTemplates : List (String × String) :=
  [("mac", "fmodstudioapi{version}mac-installer.dmg"),
   ("linux", "fmodstudioapi{version}linux.tar.gz"),
   ("windows", "fmodstudioapi{version}win-installer.exe")]

/-- `get_raylib.PLATFORM_CONFIG`: platform key ↦ filename template. -/
def raylibPlatformTemplates : List (String × String) :=
  [("mac", "raylib-{version}_macos.tar.gz"),
   ("linux", "raylib-{version}_linux_amd64.tar.gz"),
   ("windows", "raylib-{version}_win64_msvc16.zip")]

/-- The installer filename `get_fmod_api.main` computes
(`PLATFORM_CONFIG[platform]['filename'].format(version=api_version)`,
lines 64-71); `none` models the unsupported-platform exit. -/
def getFmodFilename (platform version : String) : Option String :=
  (List.lookup platform fmodPlatformTemplates).map (fun t => pyFormatVersion t version)

/-- The archive filename `get_raylib.main` computes (lines 57-65). -/
def getRaylibFilename (platform version : String) : Option String :=
  (List.lookup platform raylibPlatformTemplates).map (fun t => pyFormatVersion t version)

/-! ## Orchestrator installer-name tables

`setup_fmod_api.main` (lines 73-81) and `setup_raylib.main` (lines 71-79)
recompute the installer filename with f-strings (modelled as string
concatenation) in their own `installer_patterns` dicts and fail with
`ValueError` (`none` here) when `installer_patterns.get(platform)` misses. -/

/-- `setup_fmod_api.main`'s `installer_patterns` dict for a given version. -/
def setupFmodInstallerPatterns (v : String) : List (String × String) :=
  [("windows", "fmodstudioapi" ++ v ++ "win-installer.exe"),
   ("linux", "fmodstudioapi" ++ v ++ "linux.tar.gz"),
   ("apple", "fmodstudioapi" ++ v ++ "mac-installer.dmg")]

/-- `installer_patterns.get(platform)` in `setup_fmod_api.main`. -/
def setupFmodInstallerName (platform v : String) : Option String :=
  List.lookup platform (setupFmodInstallerPatterns v)

/-- `setup_raylib.main`'s `installer_patterns` dict for a given version. -/
def setupRaylibInstallerPatterns (v : String) : List (String × String) :=
  [("mac", "raylib-" ++ v ++ "_macos.tar.gz"),
   ("linux", "raylib-" ++ v ++ "_linux_amd64.tar.gz"),
   ("windows", "raylib-" ++ v ++ "_win64_msvc16.zip")]

/-- `installer_patterns.get(platform)` in `setup_raylib.main`. -/
def setupRaylibInstallerName (platform v : String) : Option String :=
  List.lookup platform (setupRaylibInstallerPatterns v)

/-! ## Platform detection

`detect_platform` of `install_fmod_api.py` (lines 62-72) and of
`install_raylib.py` (lines 42-52): the filename is lowercased and matched
against substring + extension combinations in source order; no match
raises `ValueError`, modelled as `none`. -/

/-- The three platforms of both `PLATFORM_CONFIG` tables. -/
inductive Platform where
  | windows
  | linux
  | mac
deriving DecidableEq, Repr

/-- `install_fmod_api.detect_platform` on the installer's filename. -/
def detectPlatformFmod (filename : List Char) : Option Platform :=
  if hasSubL "win".data (pyLower filename) && trailsWith ".exe".data (pyLower filename) then
    some .windows
  else if hasSubL "linux".data (pyLower filename) && trailsWith ".tar.gz".data (pyLower filename) then
    some .linux
  else if hasSubL "mac".data (pyLower filename) && trailsWith ".dmg".data (pyLower filename) then
    some .mac
  else
    none

/-- `install_raylib.detect_platform` on the installer's filename. -/
def detectPlatformRaylib (filename : List Char) : Option Platform :=
  if hasSubL "win".data (pyLower filename) && trailsWith ".zip".data (pyLower filename) then
    some .windows
  else if hasSubL "linux".data (pyLower filename) && trailsWith ".tar.gz".data (pyLower filename) then
    some .linux
  else if hasSubL "macos".data (pyLower filename) && trailsWith ".tar.gz".data (pyLower filename) then
    some .mac
  else
    none

/-! ## Filesystem model

A `Path` is the list of its segments; the filesystem at a given moment is
the list of paths that exist (files and directories alike, as both
`pathlib.Path.exists` and `rglob` see them).  Directory creation of
intermediate parents (`mkdir(parents=True, exist_ok=True)`) is not
tracked; only entries produced by the copy operations are. -/

/-- A filesystem path, as its list of segments. -/
abbrev Path := List String

/-- Split a character list at every occurrence of `sep` (the semantics of
`String.splitOn` for a one-character separator, in a structurally
recursive form). -/
def splitOnChar (sep : Char) : List Char → List (List Char)
  | [] => [[]]
  | c :: cs =>
    if c == sep then [] :: splitOnChar sep cs
    else
      match splitOnChar sep cs with
      | [] => [[c]]
      | seg :: rest => (c :: seg) :: rest

/-- `pathlib.Path(s)` for the slash-separated strings these scripts use. -/
def splitPath (s : String) : Path :=
  (splitOnChar '/' s.data).map (fun seg => ⟨seg⟩)

/-- `Path.name`: the final path component. -/
def pathName (p : Path) : String := p.getLastD ""

/-- `shutil.rmtree(root)`: every path at or below `root` is removed. -/
def removeUnder (root : Path) (files : List Path) : List Path :=
  files.filter (fun p => !(leadsL root p))

/-- `root.rglob(pat)` for the literal patterns these scripts use: every
existing path strictly below `root` whose final component is `pat`.  The
result order is the model's directory-walk order (the order of `files`). -/
def rglobName (files : List Path) (root : Path) (pat : String) : List Path :=
  files.filter (fun p => leadsL root p && decide (root.length < p.length) && pathName p == pat)

/-- `shutil.copytree(src, dst, dirs_exist_ok=True)`: every existing path
at or below `src` reappears relocated below `dst`. -/
def copyTreeAdds (files : List Path) (src dst : Path) : List Path :=
  (files.filter (fun p => leadsL src p)).map (fun p => dst ++ p.drop src.length)

/-! ## Installer platform tables

`PLATFORM_CONFIG` of `install_fmod_api.py` (lines 17-59) and of
`install_raylib.py` (lines 17-39).  The FMOD `plugins` entries are Python
`set` literals; they are modelled as lists in literal order (the copy
step only tests each element for existence, so order is immaterial). -/

/-- The `api_structure` record of `install_fmod_api.PLATFORM_CONFIG`. -/
structure FmodApiStructure where
  coreIncDir : String
  coreLibDir : String
  studioIncDir : String
  studioLibDir : String
  plugins : List String
deriving DecidableEq, Repr

/-- One entry of `install_fmod_api.PLATFORM_CONFIG`. -/
structure FmodProfile where
  libSubdir : String
  apiStructure : FmodApiStructure
deriving DecidableEq, Repr

/-- `install_fmod_api.PLATFORM_CONFIG`. -/
def fmodPlatformConfig : Platform → FmodProfile
  | .windows =>
    ⟨"win_x64",
     ⟨"api/core/inc", "api/core/lib/x64", "api/studio/inc", "api/studio/lib/x64",
      ["plugins/fmod_haptics/lib/x64/fmod_haptics.dll",
       "plugins/resonance_audio/lib/x64/resonanceaudio.dll"]⟩⟩
  | .linux =>
    ⟨"linux_x64",
     ⟨"api/core/inc", "api/core/lib/x86_64", "api/studio/inc", "api/studio/lib/x86_64",
      ["plugins/resonance_audio/lib/resonanceaudio.so"]⟩⟩
  | .mac =>
    ⟨"mac",
     ⟨"api/core/inc", "api/core/lib", "api/studio/inc", "api/studio/lib",
      ["plugins/fmod_haptics/lib/fmod_haptics.dylib",
       "plugins/resonance_audio/lib/resonanceaudio.dylib"]⟩⟩

/-- One entry of `install_raylib.PLATFORM_CONFIG`. -/
structure RaylibProfile where
  libSubdir : String
  incDir : String
  libDir : String
deriving DecidableEq, Repr

/-- `install_raylib.PLATFORM_CONFIG`. -/
def raylibPlatformConfig : Platform → RaylibProfile
  | .windows => ⟨"win_x64", "include", "lib"⟩
  | .linux => ⟨"linux_x64", "include", "lib"⟩
  | .mac => ⟨"mac", "include", "lib"⟩

/-- `FMOD_LIB_DIR` (`PROJECT_ROOT / "libs" / "fmod"`), relative to the
project root. -/
def fmodLibDir : Path := ["libs", "fmod"]

/-- `RAYLIB_LIB_DIR` (`PROJECT_ROOT / "libs" / "raylib"`). -/
def raylibLibDir : Path := ["libs", "raylib"]

/-! ## The FMOD copy step -/

/-- `install_fmod_api.copy_api_files` lines 153-159: the marker-directory
search and its fallback.  `apiMatches` is `list(temp_dir.rglob('api'))`;
when it is empty the code sets `api_dirs = [temp_dir]`, and then takes
`api_dirs[0].parent` (the trailing `if api_dirs else temp_dir` is
unreachable at that point). -/
def sourceRootFmod (tempDir : Path) (apiMatches : List Path) : Path :=
  match (if apiMatches.isEmpty then [tempDir] else apiMatches) with
  | [] => tempDir
  | d :: _ => d.dropLast

/-- Result of a copy phase: the warnings printed and the destination
paths added.  The FMOD copy step never raises. -/
structure CopyOut where
  warnings : List String
  added : List Path
deriving DecidableEq, Repr

/-- One guarded directory copy of `copy_api_files`: if the source exists
the tree is copied (merge semantics), otherwise a warning is printed. -/
def copyDirStep (files : List Path) (src dst : Path) (warnMsg : String) : CopyOut :=
  if src ∈ files then ⟨[], copyTreeAdds files src dst⟩ else ⟨[warnMsg], []⟩

/-- `install_fmod_api.copy_plugins` (lines 205-252), new-format branch:
each configured plugin binary that exists under the source root is copied
by filename (flattened) into `FMOD_LIB_DIR/plugins/<lib_subdir>`; a
missing one prints a not-found line. -/
def copyPluginsFmod (files : List Path) (sourceRoot : Path) (plat : Platform) : CopyOut :=
  (fmodPlatformConfig plat).apiStructure.plugins.foldl
    (fun acc pp =>
      if sourceRoot ++ splitPath pp ∈ files then
        ⟨acc.warnings,
         acc.added ++ [fmodLibDir ++ ["plugins", (fmodPlatformConfig plat).libSubdir,
                                      pathName (sourceRoot ++ splitPath pp)]]⟩
      else
        ⟨acc.warnings ++ [pathName (sourceRoot ++ splitPath pp) ++ " not found at " ++ pp],
         acc.added⟩)
    ⟨[], []⟩

/-- `install_fmod_api.copy_api_files` (lines 146-202): resolve the source
root, then four guarded directory copies and the plugin copies.  Total —
every missing component yields a warning, never an exception. -/
def fmodCopyApiFiles (files : List Path) (tempDir : Path) (plat : Platform) : CopyOut :=
  let srcRoot := sourceRootFmod tempDir (rglobName files tempDir "api")
  let s := (fmodPlatformConfig plat).apiStructure
  let c1 := copyDirStep files (srcRoot ++ splitPath s.coreIncDir)
      (fmodLibDir ++ ["core", "inc"]) "Core headers not found"
  let c2 := copyDirStep files (srcRoot ++ splitPath s.coreLibDir)
      (fmodLibDir ++ ["core", "lib", (fmodPlatformConfig plat).libSubdir]) "Core libraries not found"
  let c3 := copyDirStep files (srcRoot ++ splitPath s.studioIncDir)
      (fmodLibDir ++ ["studio", "inc"]) "Studio headers not found"
  let c4 := copyDirStep files (srcRoot ++ splitPath s.studioLibDir)
      (fmodLibDir ++ ["studio", "lib", (fmodPlatformConfig plat).libSubdir]) "Studio libraries not found"
  let c5 := copyPluginsFmod files srcRoot plat
  ⟨c1.warnings ++ c2.warnings ++ c3.warnings ++ c4.warnings ++ c5.warnings,
   c1.added ++ c2.added ++ c3.added ++ c4.added ++ c5.added⟩

/-! ## The raylib copy step -/

/-- Result of `install_raylib.copy_api_files`: `raised = true` models the
`AttributeError` thrown by `"".exists()` when an `rglob` search comes
back empty (`src = inc_src_dirs[0] if inc_src_dirs else ""`, lines 73 and
83); `warnings`/`added` record what happened before the raise. -/
structure RayCopyOut where
  raised : Bool
  warnings : List String
  added : List Path
deriving DecidableEq, Repr

/-- `install_raylib.copy_api_files` (lines 62-90). -/
def raylibCopyApiFiles (files : List Path) (tempDir : Path) (plat : Platform) : RayCopyOut :=
  let cfg := raylibPlatformConfig plat
  match rglobName files tempDir cfg.incDir, rglobName files tempDir cfg.libDir with
  | [], _ => ⟨true, [], []⟩
  | _ :: _, [] =>
    let c1 := copyDirStep files ((rglobName files tempDir cfg.incDir).headD [])
        (raylibLibDir ++ splitPath cfg.incDir) "Raylib headers not found"
    ⟨true, c1.warnings, c1.added⟩
  | _ :: _, _ :: _ =>
    let c1 := copyDirStep files ((rglobName files tempDir cfg.incDir).headD [])
        (raylibLibDir ++ splitPath cfg.incDir) "Raylib headers not found"
    let c2 := copyDirStep files ((rglobName files tempDir cfg.libDir).headD [])
        (raylibLibDir ++ splitPath cfg.libDir ++ [cfg.libSubdir]) "Raylib libraries not found"
    ⟨false, c1.warnings ++ c2.warnings, c1.added ++ c2.added⟩

/-! ## Windows installer extraction

`install_fmod_api.extract_windows_exe` (lines 75-109): three candidate
7-Zip invocations are tried in order; the first whose subprocess call
completes without `FileNotFoundError`/`CalledProcessError` wins, and when
all fail a `RuntimeError` naming 7-Zip with install instructions is
raised.  `runOk c` is the oracle for "the subprocess invocation of
candidate `c` completed without those errors". -/

/-- The `seven_zip_paths` candidate list, in source order. -/
def sevenZipPaths : List String :=
  ["7z", "C:\\Program Files\\7-Zip\\7z.exe", "C:\\Program Files (x86)\\7-Zip\\7z.exe"]

/-- The `RuntimeError` message of `extract_windows_exe`. -/
def sevenZipErrorMsg : String :=
  "Cannot extract Windows installer. Please install 7-Zip:\n" ++
  "  1. Download from: https://www.7-zip.org/download.html\n" ++
  "  2. Install to default location\n" ++
  "  3. Re-run this script\n\n" ++
  "For CI/CD, install 7-Zip in your pipeline:\n" ++
  "  winget install -e --id 7zip.7zip\n" ++
  "  choco install 7zip  (Chocolatey)\n" ++
  "  or use GitHub Actions: actions/setup-7zip"

/-- The `for seven_zip in seven_zip_paths` loop: return on the first
candidate whose invocation succeeds, else fall through to the error. -/
def tryCandidates (runOk : String → Bool) : List String → Except String String
  | [] => .error sevenZipErrorMsg
  | z :: rest => if runOk z then .ok z else tryCandidates runOk rest

/-- `install_fmod_api.extract_windows_exe`; `.ok c` reports which
candidate performed the extraction. -/
def extractWindowsExe (runOk : String → Bool) : Except String String :=
  tryCandidates runOk sevenZipPaths

/-! ## The install `main` routines

`install_fmod_api.main` (lines 255-317) and `install_raylib.main`
(lines 93-150).  The model takes:

  * `argv` — the full `sys.argv`, script name included;
  * `files` — the filesystem, as the list of existing paths;
  * `tempDir` — the fresh directory `tempfile.mkdtemp` returns;
  * `er` — the extraction oracle: `.ok rel` means extraction succeeds
    and creates the relative paths `rel` under the temp directory,
    `.error ()` means the format handler raises.

The result is `(exit code, final filesystem)`.  The `try/except/finally`
discipline is modelled exactly: the body yields either `.ok` or `.error`
together with the filesystem at that moment, and the `finally` block
(`shutil.rmtree(temp_dir)`) runs on both before the routine returns. -/

/-- The `try` body of `install_fmod_api.main`: extract, copy (total for
FMOD), then `installer_path.unlink()` when `--delete-installer` was
passed.  The error value is the filesystem at the moment of the raise. -/
def fmodTryBody (files : List Path) (installer tempDir : Path) (plat : Platform)
    (deleteFlag : Bool) (er : Except Unit (List Path)) : Except (List Path) (List Path) :=
  match er with
  | .error _ => .error files
  | .ok rel =>
    let f1 := files ++ rel.map (fun r => tempDir ++ r)
    let f2 := f1 ++ (fmodCopyApiFiles f1 tempDir plat).added
    if deleteFlag then .ok (f2.filter (fun p => !(p == installer))) else .ok f2

/-- The `try` body of `install_raylib.main`: extraction, then the copy
step, which may itself raise (see `RayCopyOut.raised`). -/
def raylibTryBody (files : List Path) (installer tempDir : Path) (plat : Platform)
    (deleteFlag : Bool) (er : Except Unit (List Path)) : Except (List Path) (List Path) :=
  match er with
  | .error _ => .error files
  | .ok rel =>
    let f1 := files ++ rel.map (fun r => tempDir ++ r)
    let out := raylibCopyApiFiles f1 tempDir plat
    if out.raised then .error (f1 ++ out.added)
    else if deleteFlag then .ok ((f1 ++ out.added).filter (fun p => !(p == installer)))
    else .ok (f1 ++ out.added)

/-- `install_fmod_api.main`: argument-count check, `--delete-installer`
flag, `is_file` check, platform detection, `mkdtemp`, then the
`try/except/finally` with the cleanup of the temp directory on every
path through the body. -/
def fmodMain (argv : List String) (files : List Path) (tempDir : Path)
    (er : Except Unit (List Path)) : Nat × List Path :=
  if argv.length < 2 ∨ 3 < argv.length then (1, files)
  else if splitPath (argv.getD 1 "") ∈ files then
    match detectPlatformFmod (pathName (splitPath (argv.getD 1 ""))).data with
    | none => (1, files)
    | some plat =>
      match fmodTryBody (files ++ [tempDir]) (splitPath (argv.getD 1 "")) tempDir plat
          (argv.length == 3 && argv.getD 2 "" == "--delete-installer") er with
      | .ok f2 => (0, removeUnder tempDir f2)
      | .error fe => (1, removeUnder tempDir fe)
  else (1, files)

/-- `install_raylib.main`, same structure as `fmodMain` with the raylib
platform detector and copy step. -/
def raylibMain (argv : List String) (files : List Path) (tempDir : Path)
    (er : Except Unit (List Path)) : Nat × List Path :=
  if argv.length < 2 ∨ 3 < argv.length then (1, files)
  else if splitPath (argv.getD 1 "") ∈ files then
    match detectPlatformRaylib (pathName (splitPath (argv.getD 1 ""))).data with
    | none => (1, files)
    | some plat =>
      match raylibTryBody (files ++ [tempDir]) (splitPath (argv.getD 1 "")) tempDir plat
          (argv.length == 3 && argv.getD 2 "" == "--delete-installer") er with
      | .ok f2 => (0, removeUnder tempDir f2)
      | .error fe => (1, removeUnder tempDir fe)
  else (1, files)

/-! ## Helper lemmas -/

theorem leadsL_cons {α : Type} [BEq α] [LawfulBEq α] {a : α} {as l : List α}
    (h : leadsL (a :: as) l = true) : ∃ t, l = a :: t ∧ leadsL as t = true := by
  cases l with
  | nil => simp [leadsL] at h
  | cons b bs =>
    rw [leadsL, Bool.and_eq_true, beq_iff_eq] at h
    exact ⟨bs, by rw [h.1], h.2⟩

/-- Two different characters cannot both begin the reverse of the same
string: the heart of the fact that a filename cannot carry two of the
extensions `.exe`, `.tar.gz`, `.dmg`, `.zip` at once. -/
theorem rev_conflict {s : List Char} {c1 c2 : Char} {t1 t2 : List Char}
    (h1 : leadsL (c1 :: t1) s.reverse = true) (h2 : leadsL (c2 :: t2) s.reverse = true)
    (hne : c1 ≠ c2) : False := by
  obtain ⟨u, hu, _⟩ := leadsL_cons h1
  obtain ⟨w, hw, _⟩ := leadsL_cons h2
  rw [hu] at hw
  injection hw with hc _
  exact hne hc

theorem tgz_not_exe {s : List Char} (h : trailsWith ".tar.gz".data s = true) :
    trailsWith ".exe".data s = false := by
  cases hx : trailsWith ".exe".data s with
  | false => rfl
  | true =>
    exact (rev_conflict (show leadsL ('z' :: "g.rat.".data) s.reverse = true from h)
      (show leadsL ('e' :: "xe.".data) s.reverse = true from hx) (by decide)).elim

theorem tgz_not_zip {s : List Char} (h : trailsWith ".tar.gz".data s = true) :
    trailsWith ".zip".data s = false := by
  cases hx : trailsWith ".zip".data s with
  | false => rfl
  | true =>
    exact (rev_conflict (show leadsL ('z' :: "g.rat.".data) s.reverse = true from h)
      (show leadsL ('p' :: "iz.".data) s.reverse = true from hx) (by decide)).elim

theorem dmg_not_exe {s : List Char} (h : trailsWith ".dmg".data s = true) :
    trailsWith ".exe".data s = false := by
  cases hx : trailsWith ".exe".data s with
  | false => rfl
  | true =>
    exact (rev_conflict (show leadsL ('g' :: "md.".data) s.reverse = true from h)
      (show leadsL ('e' :: "xe.".data) s.reverse = true from hx) (by decide)).elim

theorem dmg_not_tgz {s : List Char} (h : trailsWith ".dmg".data s = true) :
    trailsWith ".tar.gz".data s = false := by
  cases hx : trailsWith ".tar.gz".data s with
  | false => rfl
  | true =>
    exact (rev_conflict (show leadsL ('g' :: "md.".data) s.reverse = true from h)
      (show leadsL ('z' :: "g.rat.".data) s.reverse = true from hx) (by decide)).elim

theorem zip_not_exe {s : List Char} (h : trailsWith ".zip".data s = true) :
    trailsWith ".exe".data s = false := by
  cases hx : trailsWith ".exe".data s with
  | false => rfl
  | true =>
    exact (rev_conflict (show leadsL ('p' :: "iz.".data) s.reverse = true from h)
      (show leadsL ('e' :: "xe.".data) s.reverse = true from hx) (by decide)).elim

theorem zip_not_tgz {s : List Char} (h : trailsWith ".zip".data s = true) :
    trailsWith ".tar.gz".data s = false := by
  cases hx : trailsWith ".tar.gz".data s with
  | false => rfl
  | true =>
    exact (rev_conflict (show leadsL ('p' :: "iz.".data) s.reverse = true from h)
      (show leadsL ('z' :: "g.rat.".data) s.reverse = true from hx) (by decide)).elim

theorem zip_not_dmg {s : List Char} (h : trailsWith ".zip".data s = true) :
    trailsWith ".dmg".data s = false := by
  cases hx : trailsWith ".dmg".data s with
  | false => rfl
  | true =>
    exact (rev_conflict (show leadsL ('p' :: "iz.".data) s.reverse = true from h)
      (show leadsL ('g' :: "md.".data) s.reverse = true from hx) (by decide)).elim

/-! ## Claims C1 and C4: filenames -/

/-- C1: the claim states that the Setup Orchestrator's `installer_patterns`
table and the Downloader's `PLATFORM_CONFIG` template produce identical
filenames for every `(platform_key, version)` and accept exactly the same
platform keys.  The code violates this for the FMOD pair:
`setup_fmod_api.py` keys its table by `'apple'` while `get_fmod_api.py`
is keyed by `'mac'`, so the key `'mac'` (accepted by the downloader) has
no orchestrator pattern and the key `'apple'` (accepted by the
orchestrator) is rejected by the downloader.  This theorem evaluates both
components at the failing inputs, and also records that the raylib pair
(and the two common FMOD keys) do satisfy the claimed equivalence. -/
theorem claim1_setup_downloader_filename_equivalence :
    setupFmodInstallerName "mac" "20312" = none
    ∧ getFmodFilename "mac" "20312" = some "fmodstudioapi20312mac-installer.dmg"
    ∧ setupFmodInstallerName "apple" "20312" = some "fmodstudioapi20312mac-installer.dmg"
    ∧ getFmodFilename "apple" "20312" = none
    ∧ (∀ v : String,
        setupRaylibInstallerName "mac" v = getRaylibFilename "mac" v
        ∧ setupRaylibInstallerName "linux" v = getRaylibFilename "linux" v
        ∧ setupRaylibInstallerName "windows" v = getRaylibFilename "windows" v
        ∧ setupFmodInstallerName "windows" v = getFmodFilename "windows" v
        ∧ setupFmodInstallerName "linux" v = getFmodFilename "linux" v) := by
  refine ⟨rfl, rfl, rfl, rfl, fun v => ?_⟩
  cases v with
  | mk d => exact ⟨rfl, rfl, rfl, rfl, rfl⟩

/-- C4: for each supported platform key and any version string `v`,
substituting `v` into that platform's filename template yields exactly
the expected literal filename, for both downloaders; in particular
version `20312` with platform `windows` yields
`fmodstudioapi20312win-installer.exe`. -/
theorem claim4_filename_template_substitution (v : String) :
    getFmodFilename "windows" v = some ("fmodstudioapi" ++ v ++ "win-installer.exe")
    ∧ getFmodFilename "linux" v = some ("fmodstudioapi" ++ v ++ "linux.tar.gz")
    ∧ getFmodFilename "mac" v = some ("fmodstudioapi" ++ v ++ "mac-installer.dmg")
    ∧ getRaylibFilename "windows" v = some ("raylib-" ++ v ++ "_win64_msvc16.zip")
    ∧ getRaylibFilename "linux" v = some ("raylib-" ++ v ++ "_linux_amd64.tar.gz")
    ∧ getRaylibFilename "mac" v = some ("raylib-" ++ v ++ "_macos.tar.gz")
    ∧ getFmodFilename "windows" "20312" = some "fmodstudioapi20312win-installer.exe" := by
  cases v with
  | mk d => exact ⟨rfl, rfl, rfl, rfl, rfl, rfl, rfl⟩

/-! ## Claim C5: platform detection -/

/-- C5: each `detect_platform` returns a platform key exactly for the
filenames matching one of its substring + extension combinations and
fails for every other filename; each combination maps to the stated
platform (the raylib `'macos' + '.tar.gz'` case carries the proviso that
`'linux'` does not also occur in the name — when both substrings occur,
the decision list returns `linux`, per the earlier-listed combination —
and for the audio SDK a filename containing `'win'` that ends in `'.zip'`
is rejected).  All tests are on the lowercased filename, as in the
source. -/
theorem claim5_detect_platform (name : List Char) :
    ((detectPlatformFmod name).isSome =
      (hasSubL "win".data (pyLower name) && trailsWith ".exe".data (pyLower name)
        || hasSubL "linux".data (pyLower name) && trailsWith ".tar.gz".data (pyLower name)
        || hasSubL "mac".data (pyLower name) && trailsWith ".dmg".data (pyLower name)))
    ∧ (hasSubL "win".data (pyLower name) = true → trailsWith ".exe".data (pyLower name) = true →
        detectPlatformFmod name = some Platform.windows)
    ∧ (hasSubL "linux".data (pyLower name) = true → trailsWith ".tar.gz".data (pyLower name) = true →
        detectPlatformFmod name = some Platform.linux)
    ∧ (hasSubL "mac".data (pyLower name) = true → trailsWith ".dmg".data (pyLower name) = true →
        detectPlatformFmod name = some Platform.mac)
    ∧ (hasSubL "win".data (pyLower name) = true → trailsWith ".zip".data (pyLower name) = true →
        detectPlatformFmod name = none)
    ∧ ((detectPlatformRaylib name).isSome =
      (hasSubL "win".data (pyLower name) && trailsWith ".zip".data (pyLower name)
        || hasSubL "linux".data (pyLower name) && trailsWith ".tar.gz".data (pyLower name)
        || hasSubL "macos".data (pyLower name) && trailsWith ".tar.gz".data (pyLower name)))
    ∧ (hasSubL "win".data (pyLower name) = true → trailsWith ".zip".data (pyLower name) = true →
        detectPlatformRaylib name = some Platform.windows)
    ∧ (hasSubL "linux".data (pyLower name) = true → trailsWith ".tar.gz".data (pyLower name) = true →
        detectPlatformRaylib name = some Platform.linux)
    ∧ (hasSubL "macos".data (pyLower name) = true → trailsWith ".tar.gz".data (pyLower name) = true →
        hasSubL "linux".data (pyLower name) = false →
        detectPlatformRaylib name = some Platform.mac) := by
  refine ⟨?_, ?_, ?_, ?_, ?_, ?_, ?_, ?_, ?_⟩
  · cases h1 : (hasSubL "win".data (pyLower name) && trailsWith ".exe".data (pyLower name)) <;>
      cases h2 : (hasSubL "linux".data (pyLower name) && trailsWith ".tar.gz".data (pyLower name)) <;>
      cases h3 : (hasSubL "mac".data (pyLower name) && trailsWith ".dmg".data (pyLower name)) <;>
      simp [detectPlatformFmod, h1, h2, h3]
  · intro hw he
    simp [detectPlatformFmod, hw, he]
  · intro hl ht
    simp [detectPlatformFmod, hl, ht, tgz_not_exe ht]
  · intro hm hd
    simp [detectPlatformFmod, hm, hd, dmg_not_exe hd, dmg_not_tgz hd]
  · intro hw hz
    simp [detectPlatformFmod, zip_not_exe hz, zip_not_tgz hz, zip_not_dmg hz]
  · cases h1 : (hasSubL "win".data (pyLower name) && trailsWith ".zip".data (pyLower name)) <;>
      cases h2 : (hasSubL "linux".data (pyLower name) && trailsWith ".tar.gz".data (pyLower name)) <;>
      cases h3 : (hasSubL "macos".data (pyLower name) && trailsWith ".tar.gz".data (pyLower name)) <;>
      simp [detectPlatformRaylib, h1, h2, h3]
  · intro hw hz
    simp [detectPlatformRaylib, hw, hz]
  · intro hl ht
    simp [detectPlatformRaylib, hl, ht, tgz_not_zip ht]
  · intro hm ht hl
    simp [detectPlatformRaylib, hm, ht, hl, tgz_not_zip ht]

/-- Witness for C5 at concrete filenames: the FMOD Windows installer name
is detected as windows, the same name with a `.zip` extension is rejected
by the FMOD detector, and the raylib macOS archive name is detected as
mac. -/
theorem claim5_detect_platform_witness :
    detectPlatformFmod "fmodstudioapi20312win-installer.exe".data = some Platform.windows
    ∧ detectPlatformFmod "fmodstudioapi20312win-installer.zip".data = none
    ∧ detectPlatformRaylib "raylib-5.5_macos.tar.gz".data = some Platform.mac := by
  refine ⟨?_, ?_, ?_⟩
  · exact (claim5_detect_platform _).2.1 (by decide) (by decide)
  · exact (claim5_detect_platform _).2.2.2.2.1 (by decide) (by decide)
  · exact (claim5_detect_platform _).2.2.2.2.2.2.2.2 (by decide) (by decide) (by decide)

/-! ## Claim C8: Windows extraction candidates -/

theorem tryCandidates_eq (runOk : String → Bool) (l : List String) :
    tryCandidates runOk l =
      (match l.find? runOk with
       | some z => Except.ok z
       | none => Except.error sevenZipErrorMsg) := by
  induction l with
  | nil => rfl
  | cons a as ih =>
    cases h : runOk a with
    | true => simp [tryCandidates, List.find?, h]
    | false => simp [tryCandidates, List.find?, h, ih]

/-- C8: `extract_windows_exe` returns the first candidate invocation (in
the fixed order `'7z'`, then the two install paths) that completes
without error — it equals `List.find?` over the candidate list — it
succeeds iff some candidate succeeds, it raises the error iff every
candidate fails or is absent, and that error names 7-Zip and its download
instructions. -/
theorem claim8_extract_windows_exe (runOk : String → Bool) :
    extractWindowsExe runOk =
      (match sevenZipPaths.find? runOk with
       | some z => Except.ok z
       | none => Except.error sevenZipErrorMsg)
    ∧ ((extractWindowsExe runOk).isOk = true ↔ ∃ z ∈ sevenZipPaths, runOk z = true)
    ∧ (extractWindowsExe runOk = Except.error sevenZipErrorMsg ↔
        ∀ z ∈ sevenZipPaths, runOk z = false)
    ∧ hasSubL "7-Zip".data sevenZipErrorMsg.data = true
    ∧ hasSubL "https://www.7-zip.org/download.html".data sevenZipErrorMsg.data = true := by
  have he := tryCandidates_eq runOk sevenZipPaths
  refine ⟨he, ?_, ?_, by decide, by decide⟩
  · cases h : sevenZipPaths.find? runOk with
    | none =>
      rw [show extractWindowsExe runOk = _ from he, h]
      simp only [Except.isOk]
      constructor
      · intro hfalse
        cases hfalse
      · rintro ⟨z, hz, hok⟩
        exact absurd hok (List.find?_eq_none.mp h z hz)
    | some z =>
      rw [show extractWindowsExe runOk = _ from he, h]
      simp only [Except.isOk]
      exact ⟨fun _ => ⟨z, List.mem_of_find?_eq_some h, List.find?_some h⟩, fun _ => rfl⟩
  · cases h : sevenZipPaths.find? runOk with
    | none =>
      rw [show extractWindowsExe runOk = _ from he, h]
      constructor
      · intro _ z hz
        have := List.find?_eq_none.mp h z hz
        simpa using this
      · intro _
        rfl
    | some z =>
      rw [show extractWindowsExe runOk = _ from he, h]
      constructor
      · intro hfalse
        cases hfalse
      · intro hall
        have h1 : runOk z = true := List.find?_some h
        rw [hall z (List.mem_of_find?_eq_some h)] at h1
        cases h1

/-- Witness for C8: with only the bare `'7z'` invocation succeeding the
extraction reports `'7z'`, and with every candidate failing it raises the
7-Zip error message. -/
theorem claim8_extract_windows_exe_witness :
    extractWindowsExe (fun z => z == "7z") = Except.ok "7z"
    ∧ extractWindowsExe (fun _ => false) = Except.error sevenZipErrorMsg := by
  constructor
  · exact ((claim8_extract_windows_exe (fun z => z == "7z")).1).trans rfl
  · exact ((claim8_extract_windows_exe (fun _ => false)).1).trans rfl

/-! ## Claims C2 and C3: the copy steps on degenerate workspaces -/

/-- C2 (claim falsified by the code): when the extracted tree contains no
entry named `api`, `copy_api_files` first sets `api_dirs = [temp_dir]`
and then takes `api_dirs[0].parent`, so the source root used for every
subsequent copy is the PARENT of the temporary extraction directory (the
system temp directory), not the temp root itself as the claim states.
The copy step still does not hard-fail (`fmodCopyApiFiles` is total and
only accumulates warnings), but the claimed source-root identity is
false: at the concrete workspace `tmp/temp_fmod_install_x1` the computed
source root is `tmp`. -/
theorem claim2_fallback_source_root :
    (∀ tempDir : Path, sourceRootFmod tempDir [] = tempDir.dropLast)
    ∧ sourceRootFmod ["tmp", "temp_fmod_install_x1"] [] = ["tmp"]
    ∧ sourceRootFmod ["tmp", "temp_fmod_install_x1"] [] ≠ ["tmp", "temp_fmod_install_x1"]
    ∧ (fmodCopyApiFiles [] ["tmp", "temp_fmod_install_x1"] Platform.windows).warnings.length = 6
    ∧ (fmodCopyApiFiles [] ["tmp", "temp_fmod_install_x1"] Platform.windows).added = [] := by
  exact ⟨fun _ => rfl, rfl, by decide, rfl, rfl⟩

/-- C3 (claim falsified by the code, raylib side): on a completely empty
extraction workspace the FMOD copy step does complete normally — one
warning per missing component and no destination additions — but the
raylib copy step does NOT: `src = inc_src_dirs[0] if inc_src_dirs else ""`
leaves the Python string `""` in `src`, and `src.exists()` raises
`AttributeError` (modelled by `raised = true`), aborting the
installation instead of warning. -/
theorem claim3_empty_workspace_copy (tempDir : Path) (plat : Platform) :
    raylibCopyApiFiles [] tempDir plat = ⟨true, [], []⟩
    ∧ (fmodCopyApiFiles [] tempDir plat).added = []
    ∧ (fmodCopyApiFiles [] tempDir plat).warnings.length =
        4 + (fmodPlatformConfig plat).apiStructure.plugins.length := by
  refine ⟨?_, ?_, ?_⟩ <;> cases plat <;> rfl

/-! ## Helper lemmas for the `main` routines -/

theorem mem_removeUnder {q root : Path} {fs : List Path} :
    q ∈ removeUnder root fs ↔ q ∈ fs ∧ leadsL root q = false := by
  simp [removeUnder, List.mem_filter]

theorem removeUnder_all (root : Path) (fs : List Path) :
    ((removeUnder root fs).all fun p => !(leadsL root p)) = true := by
  rw [List.all_eq_true]
  intro p hp
  exact (List.mem_filter.mp hp).2

theorem fmodTryBody_error_eq {files : List Path} {installer tempDir : Path} {plat : Platform} {flag : Bool}
    {er : Except Unit (List Path)} {fe : List Path}
    (h : fmodTryBody files installer tempDir plat flag er = .error fe) : fe = files := by
  cases er with
  | error e =>
    simp only [fmodTryBody, Except.error.injEq] at h
    exact h.symm
  | ok rel =>
    cases flag <;> simp [fmodTryBody] at h

theorem fmodTryBody_ok_mem {files : List Path} {installer tempDir : Path} {plat : Platform} {flag : Bool}
    {er : Except Unit (List Path)} {f2 : List Path} {q : Path}
    (h : fmodTryBody files installer tempDir plat flag er = .ok f2)
    (hq : q ∈ files) (hne : flag = true → q ≠ installer) : q ∈ f2 := by
  cases er with
  | error e => simp [fmodTryBody] at h
  | ok rel =>
    cases flag with
    | false =>
      simp only [fmodTryBody, Bool.false_eq_true, if_false, Except.ok.injEq] at h
      subst h
      exact List.mem_append_left _ (List.mem_append_left _ hq)
    | true =>
      simp only [fmodTryBody, if_true, Except.ok.injEq] at h
      subst h
      refine List.mem_filter.mpr ⟨List.mem_append_left _ (List.mem_append_left _ hq), ?_⟩
      simp [hne rfl]

theorem fmodTryBody_ok_flag_not_mem {files : List Path} {installer tempDir : Path} {plat : Platform}
    {er : Except Unit (List Path)} {f2 : List Path}
    (h : fmodTryBody files installer tempDir plat true er = .ok f2) : installer ∉ f2 := by
  cases er with
  | error e => simp [fmodTryBody] at h
  | ok rel =>
    simp only [fmodTryBody, if_true, Except.ok.injEq] at h
    subst h
    intro hmem
    have := (List.mem_filter.mp hmem).2
    simp at this

theorem raylibTryBody_error_mem {files : List Path} {installer tempDir : Path} {plat : Platform} {flag : Bool}
    {er : Except Unit (List Path)} {fe : List Path} {q : Path}
    (h : raylibTryBody files installer tempDir plat flag er = .error fe)
    (hq : q ∈ files) : q ∈ fe := by
  cases er with
  | error e =>
    simp only [raylibTryBody, Except.error.injEq] at h
    subst h
    exact hq
  | ok rel =>
    simp only [raylibTryBody] at h
    split at h
    · injection h with h'
      subst h'
      exact List.mem_append_left _ (List.mem_append_left _ hq)
    · cases flag <;> simp at h

theorem raylibTryBody_ok_mem {files : List Path} {installer tempDir : Path} {plat : Platform} {flag : Bool}
    {er : Except Unit (List Path)} {f2 : List Path} {q : Path}
    (h : raylibTryBody files installer tempDir plat flag er = .ok f2)
    (hq : q ∈ files) (hne : flag = true → q ≠ installer) : q ∈ f2 := by
  cases er with
  | error e => simp [raylibTryBody] at h
  | ok rel =>
    simp only [raylibTryBody] at h
    split at h
    · cases h
    · cases flag with
      | false =>
        simp only [Bool.false_eq_true, if_false, Except.ok.injEq] at h
        subst h
        exact List.mem_append_left _ (List.mem_append_left _ hq)
      | true =>
        simp only [if_true, Except.ok.injEq] at h
        subst h
        refine List.mem_filter.mpr ⟨List.mem_append_left _ (List.mem_append_left _ hq), ?_⟩
        simp [hne rfl]

theorem raylibTryBody_ok_flag_not_mem {files : List Path} {installer tempDir : Path} {plat : Platform}
    {er : Except Unit (List Path)} {f2 : List Path}
    (h : raylibTryBody files installer tempDir plat true er = .ok f2) : installer ∉ f2 := by
  cases er with
  | error e => simp [raylibTryBody] at h
  | ok rel =>
    simp only [raylibTryBody] at h
    split at h
    · cases h
    · simp only [if_true, Except.ok.injEq] at h
      subst h
      intro hmem
      have := (List.mem_filter.mp hmem).2
      simp at this

/-- On any run of `install_fmod_api.main` whose `--delete-installer` flag
evaluates to false, the installer file survives (given that it is not
inside the temp directory that the `finally` block removes). -/
theorem fmodMain_keeps {argv : List String} {files : List Path} {tempDir : Path}
    {er : Except Unit (List Path)}
    (hmem : splitPath (argv.getD 1 "") ∈ files)
    (hfresh : leadsL tempDir (splitPath (argv.getD 1 "")) = false)
    (hflag : (argv.length == 3 && argv.getD 2 "" == "--delete-installer") = false) :
    splitPath (argv.getD 1 "") ∈ (fmodMain argv files tempDir er).2 := by
  unfold fmodMain
  by_cases hlen : (argv.length < 2 ∨ 3 < argv.length)
  · rw [if_pos hlen]
    exact hmem
  · rw [if_neg hlen, if_pos hmem]
    cases hd : detectPlatformFmod (pathName (splitPath (argv.getD 1 ""))).data with
    | none =>
      simp only [hd]
      exact hmem
    | some plat =>
      simp only [hd]
      cases hb : fmodTryBody (files ++ [tempDir]) (splitPath (argv.getD 1 "")) tempDir plat
          (argv.length == 3 && argv.getD 2 "" == "--delete-installer") er with
      | ok f2 =>
        simp only [hb]
        exact mem_removeUnder.mpr
          ⟨fmodTryBody_ok_mem hb (List.mem_append_left _ hmem)
            (fun hf => absurd (hflag.symm.trans hf) Bool.false_ne_true), hfresh⟩
      | error fe =>
        simp only [hb]
        have hfe := fmodTryBody_error_eq hb
        subst hfe
        exact mem_removeUnder.mpr ⟨List.mem_append_left _ hmem, hfresh⟩

/-- Same as `fmodMain_keeps` for `install_raylib.main`. -/
theorem raylibMain_keeps {argv : List String} {files : List Path} {tempDir : Path}
    {er : Except Unit (List Path)}
    (hmem : splitPath (argv.getD 1 "") ∈ files)
    (hfresh : leadsL tempDir (splitPath (argv.getD 1 "")) = false)
    (hflag : (argv.length == 3 && argv.getD 2 "" == "--delete-installer") = false) :
    splitPath (argv.getD 1 "") ∈ (raylibMain argv files tempDir er).2 := by
  unfold raylibMain
  by_cases hlen : (argv.length < 2 ∨ 3 < argv.length)
  · rw [if_pos hlen]
    exact hmem
  · rw [if_neg hlen, if_pos hmem]
    cases hd : detectPlatformRaylib (pathName (splitPath (argv.getD 1 ""))).data with
    | none =>
      simp only [hd]
      exact hmem
    | some plat =>
      simp only [hd]
      cases hb : raylibTryBody (files ++ [tempDir]) (splitPath (argv.getD 1 "")) tempDir plat
          (argv.length == 3 && argv.getD 2 "" == "--delete-installer") er with
      | ok f2 =>
        simp only [hb]
        exact mem_removeUnder.mpr
          ⟨raylibTryBody_ok_mem hb (List.mem_append_left _ hmem)
            (fun hf => absurd (hflag.symm.trans hf) Bool.false_ne_true), hfresh⟩
      | error fe =>
        simp only [hb]
        exact mem_removeUnder.mpr
          ⟨raylibTryBody_error_mem hb (List.mem_append_left _ hmem), hfresh⟩

/-- On any run of `install_fmod_api.main` that exits with status 1, the
installer file survives, whatever the flag was. -/
theorem fmodMain_fail_keeps {argv : List String} {files : List Path} {tempDir : Path}
    {er : Except Unit (List Path)}
    (hmem : splitPath (argv.getD 1 "") ∈ files)
    (hfresh : leadsL tempDir (splitPath (argv.getD 1 "")) = false)
    (hfail : (fmodMain argv files tempDir er).1 = 1) :
    splitPath (argv.getD 1 "") ∈ (fmodMain argv files tempDir er).2 := by
  unfold fmodMain at hfail ⊢
  by_cases hlen : (argv.length < 2 ∨ 3 < argv.length)
  · rw [if_pos hlen]
    exact hmem
  · rw [if_neg hlen, if_pos hmem] at hfail ⊢
    cases hd : detectPlatformFmod (pathName (splitPath (argv.getD 1 ""))).data with
    | none =>
      simp only [hd]
      exact hmem
    | some plat =>
      simp only [hd] at hfail ⊢
      cases hb : fmodTryBody (files ++ [tempDir]) (splitPath (argv.getD 1 "")) tempDir plat
          (argv.length == 3 && argv.getD 2 "" == "--delete-installer") er with
      | ok f2 =>
        rw [hb] at hfail
        simp at hfail
      | error fe =>
        simp only [hb]
        have hfe := fmodTryBody_error_eq hb
        subst hfe
        exact mem_removeUnder.mpr ⟨List.mem_append_left _ hmem, hfresh⟩

/-- Same as `fmodMain_fail_keeps` for `install_raylib.main`. -/
theorem raylibMain_fail_keeps {argv : List String} {files : List Path} {tempDir : Path}
    {er : Except Unit (List Path)}
    (hmem : splitPath (argv.getD 1 "") ∈ files)
    (hfresh : leadsL tempDir (splitPath (argv.getD 1 "")) = false)
    (hfail : (raylibMain argv files tempDir er).1 = 1) :
    splitPath (argv.getD 1 "") ∈ (raylibMain argv files tempDir er).2 := by
  unfold raylibMain at hfail ⊢
  by_cases hlen : (argv.length < 2 ∨ 3 < argv.length)
  · rw [if_pos hlen]
    exact hmem
  · rw [if_neg hlen, if_pos hmem] at hfail ⊢
    cases hd : detectPlatformRaylib (pathName (splitPath (argv.getD 1 ""))).data with
    | none =>
      simp only [hd]
      exact hmem
    | some plat =>
      simp only [hd] at hfail ⊢
      cases hb : raylibTryBody (files ++ [tempDir]) (splitPath (argv.getD 1 "")) tempDir plat
          (argv.length == 3 && argv.getD 2 "" == "--delete-installer") er with
      | ok f2 =>
        rw [hb] at hfail
        simp at hfail
      | error fe =>
        simp only [hb]
        exact mem_removeUnder.mpr
          ⟨raylibTryBody_error_mem hb (List.mem_append_left _ hmem), hfresh⟩

/-- When `install_fmod_api.main` is invoked with `--delete-installer` and
exits with status 0, the installer file is gone. -/
theorem fmodMain_flag_success_deletes {s f : String} {files : List Path} {tempDir : Path}
    {er : Except Unit (List Path)}
    (hsucc : (fmodMain [s, f, "--delete-installer"] files tempDir er).1 = 0) :
    splitPath f ∉ (fmodMain [s, f, "--delete-installer"] files tempDir er).2 := by
  unfold fmodMain at hsucc ⊢
  rw [if_neg (by simp)] at hsucc ⊢
  by_cases hmem : splitPath ([s, f, "--delete-installer"].getD 1 "") ∈ files
  · rw [if_pos hmem] at hsucc ⊢
    cases hd : detectPlatformFmod
        (pathName (splitPath ([s, f, "--delete-installer"].getD 1 ""))).data with
    | none =>
      rw [hd] at hsucc
      simp at hsucc
    | some plat =>
      simp only [hd] at hsucc ⊢
      cases hb : fmodTryBody (files ++ [tempDir])
          (splitPath ([s, f, "--delete-installer"].getD 1 "")) tempDir plat
          ([s, f, "--delete-installer"].length == 3 &&
            [s, f, "--delete-installer"].getD 2 "" == "--delete-installer") er with
      | error fe =>
        rw [hb] at hsucc
        simp at hsucc
      | ok f2 =>
        simp only [hb]
        intro hc
        have hflagT : fmodTryBody (files ++ [tempDir])
            (splitPath ([s, f, "--delete-installer"].getD 1 "")) tempDir plat true er =
            .ok f2 := hb
        exact fmodTryBody_ok_flag_not_mem hflagT (mem_removeUnder.mp hc).1
  · rw [if_neg hmem] at hsucc
    simp at hsucc

/-- Same as `fmodMain_flag_success_deletes` for `install_raylib.main`. -/
theorem raylibMain_flag_success_deletes {s f : String} {files : List Path} {tempDir : Path}
    {er : Except Unit (List Path)}
    (hsucc : (raylibMain [s, f, "--delete-installer"] files tempDir er).1 = 0) :
    splitPath f ∉ (raylibMain [s, f, "--delete-installer"] files tempDir er).2 := by
  unfold raylibMain at hsucc ⊢
  rw [if_neg (by simp)] at hsucc ⊢
  by_cases hmem : splitPath ([s, f, "--delete-installer"].getD 1 "") ∈ files
  · rw [if_pos hmem] at hsucc ⊢
    cases hd : detectPlatformRaylib
        (pathName (splitPath ([s, f, "--delete-installer"].getD 1 ""))).data with
    | none =>
      rw [hd] at hsucc
      simp at hsucc
    | some plat =>
      simp only [hd] at hsucc ⊢
      cases hb : raylibTryBody (files ++ [tempDir])
          (splitPath ([s, f, "--delete-installer"].getD 1 "")) tempDir plat
          ([s, f, "--delete-installer"].length == 3 &&
            [s, f, "--delete-installer"].getD 2 "" == "--delete-installer") er with
      | error fe =>
        rw [hb] at hsucc
        simp at hsucc
      | ok f2 =>
        simp only [hb]
        intro hc
        have hflagT : raylibTryBody (files ++ [tempDir])
            (splitPath ([s, f, "--delete-installer"].getD 1 "")) tempDir plat true er =
            .ok f2 := hb
        exact raylibTryBody_ok_flag_not_mem hflagT (mem_removeUnder.mp hc).1
  · rw [if_neg hmem] at hsucc
    simp at hsucc

/-! ## Claims C6, C7, C9, C10: the install `main` routines -/

/-- C6: for every run of an install routine that reaches the extraction
phase (the argument count is accepted, the installer file exists and
platform detection succeeds), nothing at or below the temporary
extraction directory exists in the final filesystem — the `finally`
block removes it on the success path and on every error path. -/
theorem claim6_temp_workspace_cleanup (argv : List String) (files : List Path)
    (tempDir : Path) (er : Except Unit (List Path))
    (h1 : 2 ≤ argv.length) (h2 : argv.length ≤ 3)
    (hmem : splitPath (argv.getD 1 "") ∈ files) :
    ((detectPlatformFmod (pathName (splitPath (argv.getD 1 ""))).data).isSome = true →
      (((fmodMain argv files tempDir er).2).all fun p => !(leadsL tempDir p)) = true)
    ∧ ((detectPlatformRaylib (pathName (splitPath (argv.getD 1 ""))).data).isSome = true →
      (((raylibMain argv files tempDir er).2).all fun p => !(leadsL tempDir p)) = true) := by
  constructor
  · intro hdet
    unfold fmodMain
    rw [if_neg (by omega), if_pos hmem]
    cases hd : detectPlatformFmod (pathName (splitPath (argv.getD 1 ""))).data with
    | none =>
      rw [hd] at hdet
      simp at hdet
    | some plat =>
      simp only [hd]
      cases hb : fmodTryBody (files ++ [tempDir]) (splitPath (argv.getD 1 "")) tempDir plat
          (argv.length == 3 && argv.getD 2 "" == "--delete-installer") er with
      | ok f2 =>
        simp only [hb]
        exact removeUnder_all tempDir f2
      | error fe =>
        simp only [hb]
        exact removeUnder_all tempDir fe
  · intro hdet
    unfold raylibMain
    rw [if_neg (by omega), if_pos hmem]
    cases hd : detectPlatformRaylib (pathName (splitPath (argv.getD 1 ""))).data with
    | none =>
      rw [hd] at hdet
      simp at hdet
    | some plat =>
      simp only [hd]
      cases hb : raylibTryBody (files ++ [tempDir]) (splitPath (argv.getD 1 "")) tempDir plat
          (argv.length == 3 && argv.getD 2 "" == "--delete-installer") er with
      | ok f2 =>
        simp only [hb]
        exact removeUnder_all tempDir f2
      | error fe =>
        simp only [hb]
        exact removeUnder_all tempDir fe

/-- Witness for C6: a successful FMOD run and a raylib run whose
extraction fails both leave nothing under the temp directory. -/
theorem claim6_temp_workspace_cleanup_witness :
    (((fmodMain ["install_fmod_api.py", "fmodstudioapi20312win-installer.exe"]
        [["fmodstudioapi20312win-installer.exe"]] ["tmp", "t1"] (Except.ok [])).2).all
      fun p => !(leadsL ["tmp", "t1"] p)) = true
    ∧ (((raylibMain ["install_raylib.py", "raylib-5.5_win64_msvc16.zip"]
        [["raylib-5.5_win64_msvc16.zip"]] ["tmp", "t1"] (Except.error ())).2).all
      fun p => !(leadsL ["tmp", "t1"] p)) = true := by
  constructor
  · exact (claim6_temp_workspace_cleanup
      ["install_fmod_api.py", "fmodstudioapi20312win-installer.exe"]
      [["fmodstudioapi20312win-installer.exe"]] ["tmp", "t1"] (Except.ok [])
      (by decide) (by decide) (by decide)).1 (by decide)
  · exact (claim6_temp_workspace_cleanup
      ["install_raylib.py", "raylib-5.5_win64_msvc16.zip"]
      [["raylib-5.5_win64_msvc16.zip"]] ["tmp", "t1"] (Except.error ())
      (by decide) (by decide) (by decide)).2 (by decide)

/-- C7: with `--delete-installer` passed, each install script deletes the
archive only when the run succeeds (exit 0): on every failure path
(detection, extraction, or copy failure — exit 1) the archive file still
exists in the final filesystem, and on the success path it is gone.  The
freshness hypothesis says the archive does not live inside the temporary
directory, which `mkdtemp` guarantees. -/
theorem claim7_delete_installer_only_on_success (s f : String) (files : List Path)
    (tempDir : Path) (er : Except Unit (List Path))
    (hmem : splitPath f ∈ files)
    (hfresh : leadsL tempDir (splitPath f) = false) :
    ((fmodMain [s, f, "--delete-installer"] files tempDir er).1 = 1 →
      splitPath f ∈ (fmodMain [s, f, "--delete-installer"] files tempDir er).2)
    ∧ ((fmodMain [s, f, "--delete-installer"] files tempDir er).1 = 0 →
      splitPath f ∉ (fmodMain [s, f, "--delete-installer"] files tempDir er).2)
    ∧ ((raylibMain [s, f, "--delete-installer"] files tempDir er).1 = 1 →
      splitPath f ∈ (raylibMain [s, f, "--delete-installer"] files tempDir er).2)
    ∧ ((raylibMain [s, f, "--delete-installer"] files tempDir er).1 = 0 →
      splitPath f ∉ (raylibMain [s, f, "--delete-installer"] files tempDir er).2) := by
  refine ⟨?_, ?_, ?_, ?_⟩
  · intro hfail
    exact fmodMain_fail_keeps hmem hfresh hfail
  · intro hsucc
    exact fmodMain_flag_success_deletes hsucc
  · intro hfail
    exact raylibMain_fail_keeps hmem hfresh hfail
  · intro hsucc
    exact raylibMain_flag_success_deletes hsucc

/-- Witness for C7: a failed FMOD extraction keeps `win.exe`, a
successful FMOD install deletes it; a failed raylib extraction keeps
`win.zip`, a successful raylib install (whose workspace contains the
`include` and `lib` directories) deletes it. -/
theorem claim7_delete_installer_only_on_success_witness :
    splitPath "win.exe" ∈ (fmodMain ["install_fmod_api.py", "win.exe", "--delete-installer"]
      [["win.exe"]] ["tmp", "t1"] (Except.error ())).2
    ∧ splitPath "win.exe" ∉ (fmodMain ["install_fmod_api.py", "win.exe", "--delete-installer"]
      [["win.exe"]] ["tmp", "t1"] (Except.ok [])).2
    ∧ splitPath "win.zip" ∈ (raylibMain ["install_raylib.py", "win.zip", "--delete-installer"]
      [["win.zip"]] ["tmp", "t1"] (Except.error ())).2
    ∧ splitPath "win.zip" ∉ (raylibMain ["install_raylib.py", "win.zip", "--delete-installer"]
      [["win.zip"]] ["tmp", "t1"] (Except.ok [["include"], ["lib"]])).2 := by
  refine ⟨?_, ?_, ?_, ?_⟩
  · exact (claim7_delete_installer_only_on_success "install_fmod_api.py" "win.exe"
      [["win.exe"]] ["tmp", "t1"] (Except.error ()) (by decide) (by decide)).1 (by decide)
  · exact (claim7_delete_installer_only_on_success "install_fmod_api.py" "win.exe"
      [["win.exe"]] ["tmp", "t1"] (Except.ok []) (by decide) (by decide)).2.1 (by decide)
  · exact (claim7_delete_installer_only_on_success "install_raylib.py" "win.zip"
      [["win.zip"]] ["tmp", "t1"] (Except.error ()) (by decide) (by decide)).2.2.1 (by decide)
  · exact (claim7_delete_installer_only_on_success "install_raylib.py" "win.zip"
      [["win.zip"]] ["tmp", "t1"] (Except.ok [["include"], ["lib"]])
      (by decide) (by decide)).2.2.2 (by decide)

/-- C9: a third command-line argument other than exactly
`--delete-installer` is accepted without error and is treated exactly as
if no flag were passed — the run is identical to the two-argument run —
and in particular the archive file is kept. -/
theorem claim9_unknown_third_argument_ignored (s f x : String) (files : List Path)
    (tempDir : Path) (er : Except Unit (List Path)) (hx : x ≠ "--delete-installer") :
    fmodMain [s, f, x] files tempDir er = fmodMain [s, f] files tempDir er
    ∧ raylibMain [s, f, x] files tempDir er = raylibMain [s, f] files tempDir er
    ∧ (splitPath f ∈ files → leadsL tempDir (splitPath f) = false →
        splitPath f ∈ (fmodMain [s, f, x] files tempDir er).2
        ∧ splitPath f ∈ (raylibMain [s, f, x] files tempDir er).2) := by
  have hf3 : (([s, f, x] : List String).length == 3 &&
      ([s, f, x].getD 2 "" == "--delete-installer")) = false := by
    show (x == "--delete-installer") = false
    exact beq_eq_false_iff_ne.mpr hx
  refine ⟨?_, ?_, fun hmem hfresh =>
    ⟨fmodMain_keeps hmem hfresh hf3, raylibMain_keeps hmem hfresh hf3⟩⟩
  · unfold fmodMain
    rw [hf3]
    rfl
  · unfold raylibMain
    rw [hf3]
    rfl

/-- Witness for C9 at the unknown third argument `"foo"`. -/
theorem claim9_unknown_third_argument_ignored_witness :
    fmodMain ["install_fmod_api.py", "win.exe", "foo"] [["win.exe"]] ["tmp", "t1"]
        (Except.ok [])
      = fmodMain ["install_fmod_api.py", "win.exe"] [["win.exe"]] ["tmp", "t1"] (Except.ok [])
    ∧ splitPath "win.exe" ∈ (fmodMain ["install_fmod_api.py", "win.exe", "foo"]
        [["win.exe"]] ["tmp", "t1"] (Except.ok [])).2 := by
  constructor
  · exact (claim9_unknown_third_argument_ignored "install_fmod_api.py" "win.exe" "foo"
      [["win.exe"]] ["tmp", "t1"] (Except.ok []) (by decide)).1
  · exact ((claim9_unknown_third_argument_ignored "install_fmod_api.py" "win.exe" "foo"
      [["win.exe"]] ["tmp", "t1"] (Except.ok []) (by decide)).2.2 (by decide) (by decide)).1

/-- C10: when the installer path does not name an existing file, each
install script exits with status 1 and the filesystem is returned
untouched — no temporary directory is created and the destination
library tree is unchanged. -/
theorem claim10_missing_installer_leaves_fs_unchanged (s f x : String) (files : List Path)
    (tempDir : Path) (er : Except Unit (List Path)) (h : splitPath f ∉ files) :
    fmodMain [s, f] files tempDir er = (1, files)
    ∧ fmodMain [s, f, x] files tempDir er = (1, files)
    ∧ raylibMain [s, f] files tempDir er = (1, files)
    ∧ raylibMain [s, f, x] files tempDir er = (1, files) := by
  refine ⟨?_, ?_, ?_, ?_⟩
  · unfold fmodMain
    rw [if_neg (by simp), show ([s, f].getD 1 "") = f from rfl, if_neg h]
  · unfold fmodMain
    rw [if_neg (by simp), show ([s, f, x].getD 1 "") = f from rfl, if_neg h]
  · unfold raylibMain
    rw [if_neg (by simp), show ([s, f].getD 1 "") = f from rfl, if_neg h]
  · unfold raylibMain
    rw [if_neg (by simp), show ([s, f, x].getD 1 "") = f from rfl, if_neg h]

/-- Witness for C10 on an empty filesystem. -/
theorem claim10_missing_installer_leaves_fs_unchanged_witness :
    fmodMain ["install_fmod_api.py", "win.exe"] [] ["tmp", "t1"] (Except.ok []) = (1, [])
    ∧ raylibMain ["install_raylib.py", "win.zip", "foo"] [] ["tmp", "t1"]
        (Except.ok []) = (1, []) := by
  constructor
  · exact (claim10_missing_installer_leaves_fs_unchanged "install_fmod_api.py" "win.exe" "x"
      [] ["tmp", "t1"] (Except.ok []) (by decide)).1
  · exact (claim10_missing_installer_leaves_fs_unchanged "install_raylib.py" "win.zip" "foo"
      [] ["tmp", "t1"] (Except.ok []) (by decide)).2.2.2

end FmodCMake
